import Mathlib

/-!
Verification of the shard contract negotiation pipeline of the bridge
repository (`FramesRouter`, file `src/unnamed/part_000`), against its
natural-language specification.

The router methods `addShardToFrame` and `_getContractForShard` are embedded
as pure functions over an explicit environment (the outcomes of each
collaborator call), an explicit negotiation store, and an explicit event
trace recording every side effect in invocation order.  All collaborator
calls are resolved by the `Env` record, so every execution path of the
source is one evaluation of the embedded function.
-/

set_option autoImplicit false

namespace Bridge

/-- Per-user rolling upload byte counters (`req.user.bytesUploaded`). -/
structure BytesUploaded where
  lastHourBytes : Nat
  lastDayBytes : Nat
  lastMonthBytes : Nat
deriving DecidableEq, Repr

/-- The configured free-tier thresholds (`config.application.freeTier.up`). -/
structure Rates where
  hourlyBytes : Nat
  dailyBytes : Nat
  monthlyBytes : Nat
deriving DecidableEq, Repr

/-- Modelled from the spec: `User#isUploadRateLimited(hourlyBytes, dailyBytes,
monthlyBytes) -> bool` is implemented in the external user model, not under
`src/`.  Per the spec interface (section 6) it receives only the three
configured thresholds; the user's current counters are on the user object and
no shard size is passed.  "Deny if any counter would exceed its threshold"
is modelled as a strict comparison of each current counter against its
threshold. -/
def isUploadRateLimited (b : BytesUploaded) (hourly daily monthly : Nat) : Bool :=
  b.lastHourBytes > hourly || b.lastDayBytes > daily || b.lastMonthBytes > monthly

/-- `src/lib/constants.js` lines 7-31: the exported constants object.  It does
NOT define `MAX_BLACKLIST`, so in JavaScript `constants.MAX_BLACKLIST`
evaluates to `undefined`. -/
def constants_MAX_BLACKLIST : Option Nat := none

/-- JavaScript semantics of `Array.isArray(exclude) && exclude.length > limit`
where `limit` may be `undefined` (`none`): a relational comparison with
`undefined` coerces to `NaN` and is always `false`. -/
def jsArrayLonger (exclude : Option (List String)) (limit : Option Nat) : Bool :=
  match exclude, limit with
  | some l, some m => l.length > m
  | _, _ => false

/-- `ms('90d')` in milliseconds. -/
def ms90d : Nat := 7776000000

/-- A storage contract (`storj.Contract`), with the fields the router sets. -/
structure Contract where
  data_size : Nat
  data_hash : String
  store_begin : Nat
  store_end : Nat
  audit_count : Nat
deriving DecidableEq, Repr

/-- The contract construction of `addShardToFrame` (source lines 183-193):
`store_begin: Date.now(), store_end: Date.now() + ms('90d'),
audit_count: req.body.challenges.length`.  The two separate `Date.now()`
calls are kept as two clock-read parameters `now1` and `now2`. -/
def buildContract (now1 now2 : Nat) (size : Nat) (hash : String)
    (challenges : List String) : Contract :=
  { data_size := size
    data_hash := hash
    store_begin := now1
    store_end := now2 + ms90d
    audit_count := challenges.length }

/-- The audit object (`storj.AuditStream.fromRecords(challenges, tree)`),
kept abstract as the data it is built from. -/
structure AuditStream where
  challenges : List String
  tree : List String
deriving DecidableEq, Repr

/-- The per-farmer metadata the router records (`{ downloadCount: 0 }`). -/
structure ShardMeta where
  downloadCount : Nat
deriving DecidableEq, Repr

/-- Key lookup in an association list keyed by strings. -/
def lookupKey {α : Type} (k : String) : List (String × α) → Option α
  | [] => none
  | (k2, v) :: rest => if k2 = k then some v else lookupKey k rest

/-- Key-preserving insert-or-replace in an association list. -/
def upsert {α : Type} (l : List (String × α)) (k : String) (v : α) :
    List (String × α) :=
  match l with
  | [] => [(k, v)]
  | (k2, v2) :: rest => if k2 = k then (k, v) :: rest else (k2, v2) :: upsert rest k v

/-- Negotiation state for one shard hash (`storj.StorageItem`): farmer-keyed
contract, audit-record and metadata maps.  Modelled from the spec: the
`storj-lib` implementation is not under `src/`; the spec (section 3) gives
farmer-keyed maps with at most one contract per farmer per hash. -/
structure StorageItem where
  hash : String
  contracts : List (String × Contract)
  auditRecords : List (String × AuditStream)
  meta : List (String × ShardMeta)
deriving DecidableEq, Repr

/-- `new storj.StorageItem({ hash: hash })`: the empty item scoped to a hash. -/
def emptyItem (hash : String) : StorageItem :=
  { hash := hash, contracts := [], auditRecords := [], meta := [] }

/-- `item.addContract(farmer, contract)`: farmer-keyed upsert. -/
def StorageItem.addContract (it : StorageItem) (farmer : String) (c : Contract) :
    StorageItem :=
  { it with contracts := upsert it.contracts farmer c }

/-- `item.addAuditRecords(farmer, audit)`: farmer-keyed upsert. -/
def StorageItem.addAuditRecords (it : StorageItem) (farmer : String)
    (a : AuditStream) : StorageItem :=
  { it with auditRecords := upsert it.auditRecords farmer a }

/-- `item.addMetaData(farmer, meta)`: farmer-keyed upsert. -/
def StorageItem.addMetaData (it : StorageItem) (farmer : String)
    (m : ShardMeta) : StorageItem :=
  { it with meta := upsert it.meta farmer m }

/-- The three recording steps of `_getContractForShard` (source lines 97-99),
applied in source order to the loaded item. -/
def negotiatedItem (it : StorageItem) (farmer : String) (c : Contract)
    (a : AuditStream) : StorageItem :=
  ((it.addContract farmer c).addAuditRecords farmer a).addMetaData
    farmer { downloadCount := 0 }

/-- The negotiation store: shard hash to stored `StorageItem`. -/
abbrev Store := List (String × StorageItem)

/-- Merge of two farmer-keyed entry maps: the entries of the item being saved
win per farmer, entries of the previously stored item for other farmers are
retained. -/
def mergeEntries {α : Type} (old new : List (String × α)) : List (String × α) :=
  new ++ old.filter (fun p => (lookupKey p.1 new).isNone)

/-- Farmer-keyed merge of a previously stored item with the item being saved. -/
def mergeItems (old new : StorageItem) : StorageItem :=
  { hash := new.hash
    contracts := mergeEntries old.contracts new.contracts
    auditRecords := mergeEntries old.auditRecords new.auditRecords
    meta := mergeEntries old.meta new.meta }

/-- Modelled from the spec: `contracts.save(item)` is implemented outside
`src/`; the spec (section 4.4) requires a merge/upsert discipline keyed by
farmer identifier, not a blind overwrite of the whole item. -/
def storeSave (st : Store) (it : StorageItem) : Store :=
  match lookupKey it.hash st with
  | some old => upsert st it.hash (mergeItems old it)
  | none => upsert st it.hash it

/-- Modelled from the spec: `contracts.load(hash)` is implemented outside
`src/`; it returns the stored item, and errs when none exists (the router's
error branch at source lines 88-90 exists precisely to handle that). -/
def storeLoad (st : Store) (hash : String) : Except String StorageItem :=
  match lookupKey hash st with
  | some it => .ok it
  | none => .error "not found"

/-- The item `_getContractForShard` continues with after its load step
(source lines 87-90): the stored item on success, a fresh empty item scoped
to the hash on ANY load error. -/
def loadOrCreate (st : Store) (hash : String) : StorageItem :=
  match storeLoad st hash with
  | .ok it => it
  | .error _ => emptyItem hash

/-- Side effects performed by the router, in invocation order. -/
inductive Ev where
  /-- `analytics.track` of the `User Upload Rate Limited` event. -/
  | analyticsRateLimited
  /-- `Frame.findOne({_id: req.params.frame, user: req.user._id})`. -/
  | frameLookup
  /-- `Pointer.create(pointerData)`. -/
  | pointerCreate
  /-- `self.contracts.load(hash)`. -/
  | contractsLoad (hash : String)
  /-- `self.network.getStorageOffer(contr, bl)`: a network call. -/
  | storageOffer (hash : String) (blacklist : List String)
  /-- `self.contracts.save(item)` with the item being saved. -/
  | contractsSave (item : StorageItem)
  /-- `self.network.getConsignmentPointer(farmer, contr, audit)`: a network call. -/
  | consignment (farmer : String)
  /-- `Frame.findOne({_id: frame._id}).populate('shards')`: the frame re-read. -/
  | frameReload
  /-- `req.user.recordUploadBytes(pointer.size, ...)`. -/
  | recordBytes (n : Nat)
  /-- `frame.addShard(pointer, ...)`. -/
  | addShard
deriving DecidableEq, Repr

/-- The outcome handed to `next`/`res.send` by the router. -/
inductive Outcome where
  /-- `errors.TransferRateError`. -/
  | transferRate
  /-- `errors.BadRequestError` with its message. -/
  | badRequest (msg : String)
  /-- `errors.NotFoundError`. -/
  | notFound (msg : String)
  /-- `errors.InternalError`. -/
  | internalError (msg : String)
  /-- `errors.ServiceUnavailableError`. -/
  | serviceUnavailable (msg : String)
  /-- `res.send({hash, token, operation: 'PUSH', farmer})`. -/
  | ok (hash token operation farmer : String)
deriving DecidableEq, Repr

/-- Outcomes of every collaborator call the router makes, resolving each
suspension point of one request.  `Except.error`/`some` carry the failure
message of the corresponding callback. -/
structure Env where
  /-- `req.user.bytesUploaded`. -/
  user : BytesUploaded
  /-- `self.config.application.freeTier.up`. -/
  rates : Rates
  /-- `Frame.findOne`: error, or whether a frame was found. -/
  frameFind : Except String Bool
  /-- `Pointer.create` validation outcome. -/
  pointerOk : Except String Unit
  /-- Whether `storj.AuditStream.fromRecords` throws. -/
  auditOk : Except String Unit
  /-- Whether the `storj.Contract` constructor throws. -/
  contractOk : Except String Unit
  /-- An infrastructure fault injected into `contracts.load` (a load error
  that is not "item missing"). -/
  loadFail : Option String
  /-- `self.network.getStorageOffer`: error, or accepting farmer and contract. -/
  offer : Except String (String × Contract)
  /-- `self.contracts.save` failure, if any. -/
  saveFail : Option String
  /-- `self.network.getConsignmentPointer`: error, or the upload token. -/
  consign : Except String String
  /-- The frame re-read outcome. -/
  reload : Except String Unit
  /-- `req.user.recordUploadBytes` failure, if any (only logged). -/
  recordErr : Option String
  /-- `frame.addShard` failure, if any. -/
  addShardErr : Option String

/-- The request body and params of `addShardToFrame`. -/
structure ReqBody where
  frame : String
  index : Nat
  hash : String
  size : Nat
  tree : List String
  parity : Bool
  challenges : List String
  /-- `req.body.exclude`: `none` when it is not an array. -/
  exclude : Option (List String)
deriving DecidableEq, Repr

/-- The item `_getContractForShard` holds after its load step: the stored
item when the load succeeds, a fresh `emptyItem hash` on any load error
(injected fault or missing item). -/
def loadedItem (env : Env) (st : Store) (hash : String) : StorageItem :=
  match env.loadFail with
  | some _ => emptyItem hash
  | none => loadOrCreate st hash

/-- The audit object built by `addShardToFrame`:
`storj.AuditStream.fromRecords(req.body.challenges, req.body.tree)`. -/
def auditOf (req : ReqBody) : AuditStream :=
  { challenges := req.challenges, tree := req.tree }

/-- The blacklist passed to negotiation (source line 195):
`Array.isArray(req.body.exclude) ? req.body.exclude : []`. -/
def blacklistOf (req : ReqBody) : List String :=
  match req.exclude with
  | some l => l
  | none => []

/-- The item `_getContractForShard` saves on a successful offer from
`farmer` with accepted contract `fc`, for the request `req`. -/
def phaseAItem (env : Env) (st : Store) (req : ReqBody) (farmer : String)
    (fc : Contract) : StorageItem :=
  negotiatedItem (loadedItem env st req.hash) farmer fc (auditOf req)

/-- Embedding of `FramesRouter.prototype._getContractForShard` (source lines
83-110): load the item for the contract's `data_hash` (any error replaced by
a fresh empty item), request a storage offer, record the farmer's contract,
audit records and zeroed download counter, save, and return the farmer and
contract.  Returns the callback result, the event trace and the resulting
store.  A save failure is wrapped by the source into `InternalError` and
handed to `done`; only its message travels on. -/
def getContractForShard (env : Env) (st : Store) (contr : Contract)
    (audit : AuditStream) (bl : List String) :
    Except String (String × Contract) × List Ev × Store :=
  let hash := contr.data_hash
  let item := loadedItem env st hash
  match env.offer with
  | .error e => (.error e, [Ev.contractsLoad hash, Ev.storageOffer hash bl], st)
  | .ok (farmer, contract) =>
    let it2 := negotiatedItem item farmer contract audit
    match env.saveFail with
    | some e =>
      (.error e,
       [Ev.contractsLoad hash, Ev.storageOffer hash bl, Ev.contractsSave it2],
       st)
    | none =>
      (.ok (farmer, contract),
       [Ev.contractsLoad hash, Ev.storageOffer hash bl, Ev.contractsSave it2],
       storeSave st it2)

/-- Embedding of `FramesRouter.prototype.addShardToFrame` (source lines
118-252).  `now1`/`now2` are the values of the two `Date.now()` calls in the
contract construction.  Returns the outcome, the event trace in invocation
order, and the resulting negotiation store. -/
def addShardToFrame (env : Env) (st : Store) (req : ReqBody)
    (now1 now2 : Nat) : Outcome × List Ev × Store :=
  if isUploadRateLimited env.user env.rates.hourlyBytes env.rates.dailyBytes
      env.rates.monthlyBytes then
    (Outcome.transferRate, [Ev.analyticsRateLimited], st)
  else if jsArrayLonger req.exclude constants_MAX_BLACKLIST then
    (Outcome.badRequest "Maximum blacklist length", [], st)
  else
    match env.frameFind with
    | .error e => (Outcome.internalError e, [Ev.frameLookup], st)
    | .ok false => (Outcome.notFound "Frame not found", [Ev.frameLookup], st)
    | .ok true =>
      match env.pointerOk with
      | .error e =>
        (Outcome.badRequest e, [Ev.frameLookup, Ev.pointerCreate], st)
      | .ok _ =>
        match env.auditOk with
        | .error e =>
          (Outcome.badRequest e, [Ev.frameLookup, Ev.pointerCreate], st)
        | .ok _ =>
          match env.contractOk with
          | .error e =>
            (Outcome.badRequest e, [Ev.frameLookup, Ev.pointerCreate], st)
          | .ok _ =>
            match getContractForShard env st
                (buildContract now1 now2 req.size req.hash req.challenges)
                (auditOf req) (blacklistOf req) with
            | (.error e, evs1, st1) =>
              (Outcome.serviceUnavailable e,
               Ev.frameLookup :: Ev.pointerCreate :: evs1, st1)
            | (.ok (farmer, _contract), evs1, st1) =>
              match env.consign with
              | .error e =>
                (Outcome.serviceUnavailable e,
                 Ev.frameLookup :: Ev.pointerCreate :: evs1
                   ++ [Ev.consignment farmer], st1)
              | .ok token =>
                match env.reload with
                | .error e =>
                  (Outcome.internalError e,
                   Ev.frameLookup :: Ev.pointerCreate :: evs1
                     ++ [Ev.consignment farmer, Ev.frameReload], st1)
                | .ok _ =>
                  match env.addShardErr with
                  | some e =>
                    (Outcome.internalError e,
                     Ev.frameLookup :: Ev.pointerCreate :: evs1
                       ++ [Ev.consignment farmer, Ev.frameReload,
                           Ev.recordBytes req.size, Ev.addShard], st1)
                  | none =>
                    (Outcome.ok req.hash token "PUSH" farmer,
                     Ev.frameLookup :: Ev.pointerCreate :: evs1
                       ++ [Ev.consignment farmer, Ev.frameReload,
                           Ev.recordBytes req.size, Ev.addShard], st1)

/-- The claim-C5 admission predicate as the spec states it: some counter,
after hypothetically adding the shard size, would exceed its threshold. -/
def wouldExceedWithSize (b : BytesUploaded) (r : Rates) (size : Nat) : Bool :=
  b.lastHourBytes + size > r.hourlyBytes ||
  b.lastDayBytes + size > r.dailyBytes ||
  b.lastMonthBytes + size > r.monthlyBytes

/-- Two concurrent negotiations for the same hash by two different farmers,
in the racing interleaving: both sessions perform the load step of
`_getContractForShard` before either save is applied, then the two saves
land in order.  Each session contributes the item `_getContractForShard`
would save for its farmer. -/
def interleavedNegotiations (st0 : Store) (hash f1 f2 : String)
    (c1 c2 : Contract) (a1 a2 : AuditStream) : Store :=
  let i1 := loadOrCreate st0 hash
  let i2 := loadOrCreate st0 hash
  let st1 := storeSave st0 (negotiatedItem i1 f1 c1 a1)
  storeSave st1 (negotiatedItem i2 f2 c2 a2)

/-- A user with no usage recorded. -/
def sampleUser : BytesUploaded := { lastHourBytes := 0, lastDayBytes := 0, lastMonthBytes := 0 }

/-- Free-tier thresholds of 10 bytes each, for concrete runs. -/
def sampleRates : Rates := { hourlyBytes := 10, dailyBytes := 10, monthlyBytes := 10 }

/-- A contract as returned by an accepting farmer in concrete runs. -/
def sampleContract : Contract :=
  { data_size := 5, data_hash := "h1", store_begin := 0, store_end := ms90d,
    audit_count := 2 }

/-- An environment in which every collaborator call succeeds. -/
def envAllOk : Env :=
  { user := sampleUser
    rates := sampleRates
    frameFind := .ok true
    pointerOk := .ok ()
    auditOk := .ok ()
    contractOk := .ok ()
    loadFail := none
    offer := .ok ("farmer1", sampleContract)
    saveFail := none
    consign := .ok "token1"
    reload := .ok ()
    recordErr := none
    addShardErr := none }

/-- A well-formed shard request of size 5 with two challenges. -/
def sampleReq : ReqBody :=
  { frame := "frame1", index := 0, hash := "h1", size := 5,
    tree := ["t1", "t2"], parity := false, challenges := ["c1", "c2"],
    exclude := none }

/-- The same request with a 100-entry exclusion list. -/
def oversizedReq : ReqBody :=
  { sampleReq with exclude := some (List.replicate 100 "x") }

/-- A request for a 100-byte shard. -/
def bigShardReq : ReqBody := { sampleReq with size := 100 }

/-- An environment in which everything succeeds except Phase B
(`getConsignmentPointer`). -/
def envPhaseBFails : Env := { envAllOk with consign := .error "no token" }

/-- An environment in which everything succeeds except the final
`frame.addShard`. -/
def envAttachFails : Env := { envAllOk with addShardErr := some "disk full" }

/-- An environment whose user has exceeded the hourly free-tier threshold. -/
def envRateLimited : Env :=
  { envAllOk with
      user := { lastHourBytes := 20, lastDayBytes := 0, lastMonthBytes := 0 } }

/-- An environment in which `contracts.load` fails with an infrastructure
error (not "item missing"). -/
def envLoadFails : Env := { envAllOk with loadFail := some "redis down" }

/-- A store that already holds a negotiated item for hash `"h1"` from an
earlier farmer. -/
def preexistingStore : Store :=
  [("h1", negotiatedItem (emptyItem "h1") "farmerOld" sampleContract
      (auditOf sampleReq))]

/-- A second accepted contract, distinct from `sampleContract`. -/
def sampleContract2 : Contract :=
  { data_size := 7, data_hash := "h1", store_begin := 1,
    store_end := 1 + ms90d, audit_count := 3 }

/-- The farmer holds no entry yet in the item: it is a new contract holder
for this hash (spec section 3: the excluded/stale farmers aside, a
negotiation appends new farmer entries). -/
def FarmerFresh (it : StorageItem) (f : String) : Prop :=
  lookupKey f it.contracts = none ∧ lookupKey f it.auditRecords = none ∧
  lookupKey f it.meta = none

/-! ### Lemmas about the association-list maps -/

theorem lookupKey_upsert_self {α : Type} (l : List (String × α)) (k : String)
    (v : α) : lookupKey k (upsert l k v) = some v := by
  induction l with
  | nil => simp [upsert, lookupKey]
  | cons p rest ih =>
    obtain ⟨k2, v2⟩ := p
    by_cases h : k2 = k
    · simp [upsert, h, lookupKey]
    · simp [upsert, h, lookupKey, ih]

theorem lookupKey_upsert_ne {α : Type} (l : List (String × α))
    {k k2 : String} (v : α) (h : k2 ≠ k) :
    lookupKey k (upsert l k2 v) = lookupKey k l := by
  induction l with
  | nil => simp [upsert, lookupKey, h]
  | cons p rest ih =>
    obtain ⟨k3, v3⟩ := p
    by_cases h3 : k3 = k2
    · subst h3
      simp [upsert, lookupKey, h]
    · simp [upsert, h3, lookupKey, ih]

theorem lookupKey_append_left {α : Type} {l1 : List (String × α)}
    (l2 : List (String × α)) {k : String} {v : α}
    (h : lookupKey k l1 = some v) : lookupKey k (l1 ++ l2) = some v := by
  induction l1 with
  | nil => simp [lookupKey] at h
  | cons p rest ih =>
    obtain ⟨k2, v2⟩ := p
    by_cases hk : k2 = k
    · simp [lookupKey, hk] at h ⊢; exact h
    · simp [lookupKey, hk] at h ⊢; exact ih h

theorem lookupKey_append_right {α : Type} {l1 : List (String × α)}
    (l2 : List (String × α)) {k : String}
    (h : lookupKey k l1 = none) :
    lookupKey k (l1 ++ l2) = lookupKey k l2 := by
  induction l1 with
  | nil => simp
  | cons p rest ih =>
    obtain ⟨k2, v2⟩ := p
    by_cases hk : k2 = k
    · simp [lookupKey, hk] at h
    · simp [lookupKey, hk] at h ⊢; exact ih h

theorem lookupKey_filter_keep {α : Type} {old : List (String × α)}
    {k : String} {v : α} {p : String × α → Bool}
    (h : lookupKey k old = some v) (hp : ∀ w : α, p (k, w) = true) :
    lookupKey k (old.filter p) = some v := by
  induction old with
  | nil => simp [lookupKey] at h
  | cons q rest ih =>
    obtain ⟨k2, v2⟩ := q
    by_cases hk : k2 = k
    · subst hk
      simp [lookupKey] at h
      subst h
      simp [List.filter, hp v2, lookupKey]
    · simp [lookupKey, hk] at h
      cases hq : p (k2, v2) with
      | true => simp [List.filter, hq, lookupKey, hk]; exact ih h
      | false => simp [List.filter, hq]; exact ih h

theorem lookupKey_mergeEntries_new {α : Type} (old : List (String × α))
    {new : List (String × α)} {k : String} {v : α}
    (h : lookupKey k new = some v) :
    lookupKey k (mergeEntries old new) = some v :=
  lookupKey_append_left _ h

theorem lookupKey_mergeEntries_old {α : Type} {old new : List (String × α)}
    {k : String} {v : α}
    (hnew : lookupKey k new = none) (hold : lookupKey k old = some v) :
    lookupKey k (mergeEntries old new) = some v := by
  unfold mergeEntries
  rw [lookupKey_append_right _ hnew]
  exact lookupKey_filter_keep hold (fun w => by simp [hnew])

/-- The second guard of `addShardToFrame` never fires: with `MAX_BLACKLIST`
absent from the constants module, the JavaScript comparison with `undefined`
is always false. -/
theorem jsArrayLonger_undefined (e : Option (List String)) :
    jsArrayLonger e constants_MAX_BLACKLIST = false := by
  cases e <;> rfl

theorem negotiatedItem_hash (it : StorageItem) (f : String) (c : Contract)
    (a : AuditStream) : (negotiatedItem it f c a).hash = it.hash := rfl

theorem lookupKey_negotiatedItem_contract (it : StorageItem) (f : String)
    (c : Contract) (a : AuditStream) :
    lookupKey f (negotiatedItem it f c a).contracts = some c := by
  simp [negotiatedItem, StorageItem.addContract, StorageItem.addAuditRecords,
    StorageItem.addMetaData, lookupKey_upsert_self]

theorem lookupKey_negotiatedItem_audit (it : StorageItem) (f : String)
    (c : Contract) (a : AuditStream) :
    lookupKey f (negotiatedItem it f c a).auditRecords = some a := by
  simp [negotiatedItem, StorageItem.addContract, StorageItem.addAuditRecords,
    StorageItem.addMetaData, lookupKey_upsert_self]

theorem lookupKey_negotiatedItem_meta (it : StorageItem) (f : String)
    (c : Contract) (a : AuditStream) :
    lookupKey f (negotiatedItem it f c a).meta = some { downloadCount := 0 } := by
  simp [negotiatedItem, StorageItem.addContract, StorageItem.addAuditRecords,
    StorageItem.addMetaData, lookupKey_upsert_self]

/-- Exhaustive enumeration of the execution paths of `addShardToFrame`: one
disjunct per exit point of the source, giving the exact outcome, event trace
and resulting store of that path. -/
theorem addShardToFrame_cases (env : Env) (st : Store) (req : ReqBody)
    (now1 now2 : Nat) :
    (isUploadRateLimited env.user env.rates.hourlyBytes env.rates.dailyBytes
        env.rates.monthlyBytes = true ∧
      addShardToFrame env st req now1 now2 =
        (Outcome.transferRate, [Ev.analyticsRateLimited], st)) ∨
    (∃ e, env.frameFind = Except.error e ∧
      addShardToFrame env st req now1 now2 =
        (Outcome.internalError e, [Ev.frameLookup], st)) ∨
    (env.frameFind = Except.ok false ∧
      addShardToFrame env st req now1 now2 =
        (Outcome.notFound "Frame not found", [Ev.frameLookup], st)) ∨
    (∃ e, addShardToFrame env st req now1 now2 =
        (Outcome.badRequest e, [Ev.frameLookup, Ev.pointerCreate], st)) ∨
    (∃ e, env.offer = Except.error e ∧
      addShardToFrame env st req now1 now2 =
        (Outcome.serviceUnavailable e,
         [Ev.frameLookup, Ev.pointerCreate, Ev.contractsLoad req.hash,
          Ev.storageOffer req.hash (blacklistOf req)], st)) ∨
    (∃ farmer fc e, env.offer = Except.ok (farmer, fc) ∧
      env.saveFail = some e ∧
      addShardToFrame env st req now1 now2 =
        (Outcome.serviceUnavailable e,
         [Ev.frameLookup, Ev.pointerCreate, Ev.contractsLoad req.hash,
          Ev.storageOffer req.hash (blacklistOf req),
          Ev.contractsSave (phaseAItem env st req farmer fc)], st)) ∨
    (∃ farmer fc e, env.offer = Except.ok (farmer, fc) ∧
      env.saveFail = none ∧ env.consign = Except.error e ∧
      addShardToFrame env st req now1 now2 =
        (Outcome.serviceUnavailable e,
         [Ev.frameLookup, Ev.pointerCreate, Ev.contractsLoad req.hash,
          Ev.storageOffer req.hash (blacklistOf req),
          Ev.contractsSave (phaseAItem env st req farmer fc),
          Ev.consignment farmer],
         storeSave st (phaseAItem env st req farmer fc))) ∨
    (∃ farmer fc token e, env.offer = Except.ok (farmer, fc) ∧
      env.saveFail = none ∧ env.consign = Except.ok token ∧
      env.reload = Except.error e ∧
      addShardToFrame env st req now1 now2 =
        (Outcome.internalError e,
         [Ev.frameLookup, Ev.pointerCreate, Ev.contractsLoad req.hash,
          Ev.storageOffer req.hash (blacklistOf req),
          Ev.contractsSave (phaseAItem env st req farmer fc),
          Ev.consignment farmer, Ev.frameReload],
         storeSave st (phaseAItem env st req farmer fc))) ∨
    (∃ farmer fc token e, env.offer = Except.ok (farmer, fc) ∧
      env.saveFail = none ∧ env.consign = Except.ok token ∧
      env.reload = Except.ok () ∧ env.addShardErr = some e ∧
      addShardToFrame env st req now1 now2 =
        (Outcome.internalError e,
         [Ev.frameLookup, Ev.pointerCreate, Ev.contractsLoad req.hash,
          Ev.storageOffer req.hash (blacklistOf req),
          Ev.contractsSave (phaseAItem env st req farmer fc),
          Ev.consignment farmer, Ev.frameReload, Ev.recordBytes req.size,
          Ev.addShard],
         storeSave st (phaseAItem env st req farmer fc))) ∨
    (∃ farmer fc token, env.offer = Except.ok (farmer, fc) ∧
      env.saveFail = none ∧ env.consign = Except.ok token ∧
      env.reload = Except.ok () ∧ env.addShardErr = none ∧
      addShardToFrame env st req now1 now2 =
        (Outcome.ok req.hash token "PUSH" farmer,
         [Ev.frameLookup, Ev.pointerCreate, Ev.contractsLoad req.hash,
          Ev.storageOffer req.hash (blacklistOf req),
          Ev.contractsSave (phaseAItem env st req farmer fc),
          Ev.consignment farmer, Ev.frameReload, Ev.recordBytes req.size,
          Ev.addShard],
         storeSave st (phaseAItem env st req farmer fc))) := by
  cases hrl : isUploadRateLimited env.user env.rates.hourlyBytes
      env.rates.dailyBytes env.rates.monthlyBytes with
  | true =>
    exact Or.inl ⟨rfl, by simp [addShardToFrame, hrl]⟩
  | false =>
    cases hf : env.frameFind with
    | error e =>
      exact Or.inr (Or.inl ⟨e, rfl, by
        simp [addShardToFrame, hrl, hf, jsArrayLonger_undefined]⟩)
    | ok b =>
      cases b with
      | false =>
        exact Or.inr (Or.inr (Or.inl ⟨rfl, by
          simp [addShardToFrame, hrl, hf, jsArrayLonger_undefined]⟩))
      | true =>
        cases hp : env.pointerOk with
        | error e =>
          exact Or.inr (Or.inr (Or.inr (Or.inl ⟨e, by
            simp [addShardToFrame, hrl, hf, hp, jsArrayLonger_undefined]⟩)))
        | ok u1 =>
          cases ha : env.auditOk with
          | error e =>
            exact Or.inr (Or.inr (Or.inr (Or.inl ⟨e, by
              simp [addShardToFrame, hrl, hf, hp, ha,
                jsArrayLonger_undefined]⟩)))
          | ok u2 =>
            cases hc : env.contractOk with
            | error e =>
              exact Or.inr (Or.inr (Or.inr (Or.inl ⟨e, by
                simp [addShardToFrame, hrl, hf, hp, ha, hc,
                  jsArrayLonger_undefined]⟩)))
            | ok u3 =>
              cases ho : env.offer with
              | error e =>
                refine Or.inr (Or.inr (Or.inr (Or.inr (Or.inl ⟨e, rfl, ?_⟩))))
                simp [addShardToFrame, getContractForShard, hrl, hf, hp, ha,
                  hc, ho, jsArrayLonger_undefined, buildContract]
              | ok pr =>
                obtain ⟨farmer, fc⟩ := pr
                cases hs : env.saveFail with
                | some e =>
                  refine Or.inr (Or.inr (Or.inr (Or.inr (Or.inr (Or.inl
                    ⟨farmer, fc, e, rfl, rfl, ?_⟩)))))
                  simp [addShardToFrame, getContractForShard, hrl, hf, hp,
                    ha, hc, ho, hs, jsArrayLonger_undefined, buildContract,
                    phaseAItem]
                | none =>
                  cases hcon : env.consign with
                  | error e =>
                    refine Or.inr (Or.inr (Or.inr (Or.inr (Or.inr (Or.inr
                      (Or.inl ⟨farmer, fc, e, rfl, rfl, rfl, ?_⟩))))))
                    simp [addShardToFrame, getContractForShard, hrl, hf, hp,
                      ha, hc, ho, hs, hcon, jsArrayLonger_undefined,
                      buildContract, phaseAItem]
                  | ok token =>
                    cases hre : env.reload with
                    | error e =>
                      refine Or.inr (Or.inr (Or.inr (Or.inr (Or.inr (Or.inr
                        (Or.inr (Or.inl
                          ⟨farmer, fc, token, e, rfl, rfl, rfl, rfl, ?_⟩)))))))
                      simp [addShardToFrame, getContractForShard, hrl, hf,
                        hp, ha, hc, ho, hs, hcon, hre,
                        jsArrayLonger_undefined, buildContract, phaseAItem]
                    | ok u4 =>
                      cases u4
                      cases had : env.addShardErr with
                      | some e =>
                        refine Or.inr (Or.inr (Or.inr (Or.inr (Or.inr (Or.inr
                          (Or.inr (Or.inr (Or.inl
                            ⟨farmer, fc, token, e, rfl, rfl, rfl, rfl, rfl, ?_⟩))))))))
                        simp [addShardToFrame, getContractForShard, hrl, hf,
                          hp, ha, hc, ho, hs, hcon, hre, had,
                          jsArrayLonger_undefined, buildContract, phaseAItem]
                      | none =>
                        refine Or.inr (Or.inr (Or.inr (Or.inr (Or.inr (Or.inr
                          (Or.inr (Or.inr (Or.inr
                            ⟨farmer, fc, token, rfl, rfl, rfl, rfl, rfl, ?_⟩))))))))
                        simp [addShardToFrame, getContractForShard, hrl, hf,
                          hp, ha, hc, ho, hs, hcon, hre, had,
                          jsArrayLonger_undefined, buildContract, phaseAItem]

/-! ### Claim theorems -/

/-- Claim C1 (code-bug evaluation): `MAX_BLACKLIST` is absent from the
constants module (`constants_MAX_BLACKLIST = none`), so the oversized
exclusion-list guard of `addShardToFrame` compares the list length with
`undefined` and never fires.  A request carrying a 100-entry exclusion list
is not rejected with `BadRequest`: the frame lookup, the pointer creation
and the storage-offer network call all occur and the request succeeds. -/
theorem c1_blacklist_guard_never_fires :
    (addShardToFrame envAllOk [] oversizedReq 0 0).1 =
      Outcome.ok "h1" "token1" "PUSH" "farmer1" ∧
    Ev.frameLookup ∈ (addShardToFrame envAllOk [] oversizedReq 0 0).2.1 ∧
    Ev.pointerCreate ∈ (addShardToFrame envAllOk [] oversizedReq 0 0).2.1 ∧
    Ev.storageOffer "h1" (List.replicate 100 "x") ∈
      (addShardToFrame envAllOk [] oversizedReq 0 0).2.1 := by
  decide

/-- Claim C4: when the admission check denies the upload, `addShardToFrame`
returns the transfer-rate error having emitted only the rate-limit analytics
event: no frame lookup, no pointer creation, no negotiation-store access, no
counter update; the negotiation store is returned unchanged. -/
theorem c4_denial_no_mutation (env : Env) (st : Store) (req : ReqBody)
    (now1 now2 : Nat)
    (h : isUploadRateLimited env.user env.rates.hourlyBytes
      env.rates.dailyBytes env.rates.monthlyBytes = true) :
    addShardToFrame env st req now1 now2 =
      (Outcome.transferRate, [Ev.analyticsRateLimited], st) := by
  simp [addShardToFrame, h]

/-- Witness for C4 at a user whose hourly counter exceeds the threshold. -/
theorem c4_denial_no_mutation_witness :
    isUploadRateLimited envRateLimited.user envRateLimited.rates.hourlyBytes
      envRateLimited.rates.dailyBytes envRateLimited.rates.monthlyBytes = true ∧
    addShardToFrame envRateLimited [] sampleReq 0 0 =
      (Outcome.transferRate, [Ev.analyticsRateLimited], []) :=
  ⟨by decide, c4_denial_no_mutation envRateLimited [] sampleReq 0 0 (by decide)⟩

/-- Claim C5 counterexample: the admission decision is taken by
`isUploadRateLimited` from the user's current counters and the configured
thresholds only — the shard size is not passed (source lines 124-126).  With
zero counters, thresholds of 10 bytes, and a 100-byte shard, the claim's
predicate "some counter after hypothetically adding the shard size would
exceed its threshold" holds, yet the request is admitted. -/
theorem c5_size_ignored_counterexample :
    ¬(((addShardToFrame envAllOk [] bigShardReq 0 0).1 = Outcome.transferRate) ↔
      wouldExceedWithSize envAllOk.user envAllOk.rates bigShardReq.size = true) := by
  decide

/-- Claim C5 amended: `addShardToFrame` denies the upload with the
transfer-rate error exactly when some current counter (hourly, daily or
monthly) exceeds its configured free-tier threshold; the size of the shard
being uploaded is not consulted. -/
theorem c5_admission_ignores_size (env : Env) (st : Store) (req : ReqBody)
    (now1 now2 : Nat) :
    (addShardToFrame env st req now1 now2).1 = Outcome.transferRate ↔
      (env.user.lastHourBytes > env.rates.hourlyBytes ∨
       env.user.lastDayBytes > env.rates.dailyBytes ∨
       env.user.lastMonthBytes > env.rates.monthlyBytes) := by
  constructor
  · intro h
    rcases addShardToFrame_cases env st req now1 now2 with
      ⟨hrl, hq⟩ | ⟨e, _, hq⟩ | ⟨_, hq⟩ | ⟨e, hq⟩ | ⟨e, _, hq⟩ |
      ⟨f0, fc0, e, _, _, hq⟩ | ⟨f0, fc0, e, _, _, _, hq⟩ |
      ⟨f0, fc0, token, e, _, _, _, _, hq⟩ |
      ⟨f0, fc0, token, e, _, _, _, _, _, hq⟩ |
      ⟨f0, fc0, token, _, _, _, _, _, hq⟩
    · simp [isUploadRateLimited] at hrl
      tauto
    all_goals (rw [hq] at h; simp at h)
  · intro hcnt
    have hrl : isUploadRateLimited env.user env.rates.hourlyBytes
        env.rates.dailyBytes env.rates.monthlyBytes = true := by
      simp [isUploadRateLimited]
      tauto
    simp [addShardToFrame, hrl]

/-- Claim C6: when the two clock reads of the contract construction agree,
the built contract starts now, ends now plus the 90-day retention window,
and carries an audit count equal to the number of challenges supplied; the
construction is a pure function of its inputs. -/
theorem c6_contract_construction (now1 now2 size : Nat) (hash : String)
    (challenges : List String) (h : now2 = now1) :
    (buildContract now1 now2 size hash challenges).store_begin = now1 ∧
    (buildContract now1 now2 size hash challenges).store_end = now1 + ms90d ∧
    (buildContract now1 now2 size hash challenges).audit_count =
      challenges.length := by
  subst h
  exact ⟨rfl, rfl, rfl⟩

/-- Witness for C6 at time 3 with two challenges. -/
theorem c6_contract_construction_witness :
    (3 : Nat) = 3 ∧
    ((buildContract 3 3 5 "h1" ["c1", "c2"]).store_begin = 3 ∧
     (buildContract 3 3 5 "h1" ["c1", "c2"]).store_end = 3 + ms90d ∧
     (buildContract 3 3 5 "h1" ["c1", "c2"]).audit_count =
       ["c1", "c2"].length) :=
  ⟨rfl, c6_contract_construction 3 3 5 "h1" ["c1", "c2"] rfl⟩

/-- Claim C2: when Phase A succeeds (an offer is accepted and the
negotiation-store save completes) and Phase B (`getConsignmentPointer`)
fails, the caller receives `ServiceUnavailable`, and the committed entry is
not rolled back: loading the shard hash from the store the run leaves behind
still returns the farmer's contract.  This holds for any store in which the
item stored under the shard hash (if one exists, e.g. from an earlier
negotiation of the same hash) is keyed by its own hash. -/
theorem c2_phaseB_failure_keeps_commitment (env : Env) (st : Store)
    (req : ReqBody) (now1 now2 : Nat) (farmer : String) (fc : Contract)
    (e : String)
    (hrl : isUploadRateLimited env.user env.rates.hourlyBytes
      env.rates.dailyBytes env.rates.monthlyBytes = false)
    (hf : env.frameFind = Except.ok true)
    (hp : env.pointerOk = Except.ok ())
    (ha : env.auditOk = Except.ok ())
    (hc : env.contractOk = Except.ok ())
    (ho : env.offer = Except.ok (farmer, fc))
    (hs : env.saveFail = none)
    (hcon : env.consign = Except.error e)
    (hwf : ∀ it0, lookupKey req.hash st = some it0 → it0.hash = req.hash) :
    (addShardToFrame env st req now1 now2).1 = Outcome.serviceUnavailable e ∧
    ∃ it, storeLoad (addShardToFrame env st req now1 now2).2.2 req.hash =
        Except.ok it ∧
      lookupKey farmer it.contracts = some fc := by
  have hrun : addShardToFrame env st req now1 now2 =
      (Outcome.serviceUnavailable e,
       [Ev.frameLookup, Ev.pointerCreate, Ev.contractsLoad req.hash,
        Ev.storageOffer req.hash (blacklistOf req),
        Ev.contractsSave (phaseAItem env st req farmer fc),
        Ev.consignment farmer],
       storeSave st (phaseAItem env st req farmer fc)) := by
    simp [addShardToFrame, getContractForShard, hrl, hf, hp, ha, hc, ho, hs,
      hcon, jsArrayLonger_undefined, buildContract, phaseAItem]
  have hhash : (loadedItem env st req.hash).hash = req.hash := by
    cases hl : env.loadFail with
    | some e2 => simp [loadedItem, hl, emptyItem]
    | none =>
      cases hk : lookupKey req.hash st with
      | none => simp [loadedItem, hl, loadOrCreate, storeLoad, hk, emptyItem]
      | some z =>
        simpa [loadedItem, hl, loadOrCreate, storeLoad, hk] using hwf z hk
  have hhash2 : (phaseAItem env st req farmer fc).hash = req.hash := by
    rw [phaseAItem, negotiatedItem_hash]
    exact hhash
  refine ⟨by rw [hrun], ?_⟩
  rw [hrun]
  cases hk : lookupKey req.hash st with
  | none =>
    refine ⟨phaseAItem env st req farmer fc, ?_, ?_⟩
    · simp [storeSave, hhash2, hk, storeLoad, lookupKey_upsert_self]
    · rw [phaseAItem]
      exact lookupKey_negotiatedItem_contract _ _ _ _
  | some old =>
    refine ⟨mergeItems old (phaseAItem env st req farmer fc), ?_, ?_⟩
    · simp [storeSave, hhash2, hk, storeLoad, lookupKey_upsert_self]
    · exact lookupKey_mergeEntries_new _
        (by rw [phaseAItem]; exact lookupKey_negotiatedItem_contract _ _ _ _)

/-- Witness for C2: Phase B fails in `envPhaseBFails`, on a store that
already holds an item for the shard hash from an earlier negotiation; the
outcome is `ServiceUnavailable` and the store still yields farmer1's
contract. -/
theorem c2_phaseB_failure_keeps_commitment_witness :
    envPhaseBFails.consign = Except.error "no token" ∧
    ((addShardToFrame envPhaseBFails preexistingStore sampleReq 0 0).1 =
        Outcome.serviceUnavailable "no token" ∧
      ∃ it, storeLoad
          (addShardToFrame envPhaseBFails preexistingStore sampleReq 0 0).2.2
          sampleReq.hash = Except.ok it ∧
        lookupKey "farmer1" it.contracts = some sampleContract) :=
  ⟨rfl, c2_phaseB_failure_keeps_commitment envPhaseBFails preexistingStore
    sampleReq 0 0 "farmer1" sampleContract "no token" (by decide) rfl rfl rfl
    rfl rfl rfl rfl
    (by
      intro it0 h
      have h2 : some (negotiatedItem (emptyItem "h1") "farmerOld"
          sampleContract (auditOf sampleReq)) = some it0 := h
      injection h2 with h3
      rw [← h3]
      rfl)⟩

/-- Claim C7: when no `StorageItem` exists for the shard hash, the load step
of `_getContractForShard` does not fail the negotiation: the item it
continues with is a fresh empty one scoped to the hash, and the
storage-offer request is still issued. -/
theorem c7_missing_item_synthesized (env : Env) (st : Store)
    (contr : Contract) (audit : AuditStream) (bl : List String)
    (hfresh : lookupKey contr.data_hash st = none) :
    loadedItem env st contr.data_hash = emptyItem contr.data_hash ∧
    Ev.storageOffer contr.data_hash bl ∈
      (getContractForShard env st contr audit bl).2.1 := by
  constructor
  · cases hl : env.loadFail <;>
      simp [loadedItem, hl, loadOrCreate, storeLoad, hfresh]
  · cases ho : env.offer with
    | error e => simp [getContractForShard, ho]
    | ok pr =>
      obtain ⟨f, c⟩ := pr
      cases hs : env.saveFail <;> simp [getContractForShard, ho, hs]

/-- Witness for C7 on an empty store. -/
theorem c7_missing_item_synthesized_witness :
    lookupKey sampleContract.data_hash ([] : Store) = none ∧
    (loadedItem envAllOk [] sampleContract.data_hash =
        emptyItem sampleContract.data_hash ∧
      Ev.storageOffer sampleContract.data_hash [] ∈
        (getContractForShard envAllOk [] sampleContract (auditOf sampleReq)
          []).2.1) :=
  ⟨rfl, c7_missing_item_synthesized envAllOk [] sampleContract
    (auditOf sampleReq) [] rfl⟩

/-- Claim C10: any error from the negotiation-store load — of any kind, not
only not-found — is swallowed by `_getContractForShard`: it proceeds with a
fresh empty item for the hash, the load error is never propagated (a
successful negotiation still returns the farmer and contract), and the
subsequent save writes an item built from empty state even when the store
already held an item for that hash. -/
theorem c10_load_error_swallowed (env : Env) (st : Store) (contr : Contract)
    (audit : AuditStream) (bl : List String) (e farmer : String)
    (fc : Contract)
    (hl : env.loadFail = some e)
    (ho : env.offer = Except.ok (farmer, fc))
    (hs : env.saveFail = none) :
    loadedItem env st contr.data_hash = emptyItem contr.data_hash ∧
    (getContractForShard env st contr audit bl).1 = Except.ok (farmer, fc) ∧
    (getContractForShard env st contr audit bl).2.2 =
      storeSave st
        (negotiatedItem (emptyItem contr.data_hash) farmer fc audit) := by
  refine ⟨by simp [loadedItem, hl], ?_, ?_⟩ <;>
    simp [getContractForShard, loadedItem, hl, ho, hs]

/-- Witness for C10 on a store that already holds an item for the hash: the
saved item is nevertheless built from empty state. -/
theorem c10_load_error_swallowed_witness :
    envLoadFails.loadFail = some "redis down" ∧
    (loadedItem envLoadFails preexistingStore sampleContract.data_hash =
        emptyItem sampleContract.data_hash ∧
      (getContractForShard envLoadFails preexistingStore sampleContract
          (auditOf sampleReq) []).1 =
        Except.ok ("farmer1", sampleContract) ∧
      (getContractForShard envLoadFails preexistingStore sampleContract
          (auditOf sampleReq) []).2.2 =
        storeSave preexistingStore
          (negotiatedItem (emptyItem sampleContract.data_hash) "farmer1"
            sampleContract (auditOf sampleReq))) :=
  ⟨rfl, c10_load_error_swallowed envLoadFails preexistingStore sampleContract
    (auditOf sampleReq) [] "redis down" "farmer1" sampleContract rfl rfl rfl⟩

/-- Claim C3: in every run of `addShardToFrame`, a consignment-token request
(Phase B) occurs only after the negotiation-store save completed
successfully, and the saved item records the accepted farmer's contract,
the audit records derived from the request's audit stream, and metadata
with a zeroed download counter; the store the run leaves behind is exactly
the saved state. -/
theorem c3_save_precedes_consignment (env : Env) (st : Store) (req : ReqBody)
    (now1 now2 : Nat) (farmer : String) (out : Outcome) (tr : List Ev)
    (st2 : Store)
    (hrun : addShardToFrame env st req now1 now2 = (out, tr, st2))
    (hm : Ev.consignment farmer ∈ tr) :
    env.saveFail = none ∧
    ∃ fc evs, env.offer = Except.ok (farmer, fc) ∧
      tr = Ev.frameLookup :: Ev.pointerCreate :: Ev.contractsLoad req.hash ::
        Ev.storageOffer req.hash (blacklistOf req) ::
        Ev.contractsSave (phaseAItem env st req farmer fc) ::
        Ev.consignment farmer :: evs ∧
      st2 = storeSave st (phaseAItem env st req farmer fc) ∧
      lookupKey farmer (phaseAItem env st req farmer fc).contracts = some fc ∧
      lookupKey farmer (phaseAItem env st req farmer fc).auditRecords =
        some (auditOf req) ∧
      lookupKey farmer (phaseAItem env st req farmer fc).meta =
        some { downloadCount := 0 } := by
  rcases addShardToFrame_cases env st req now1 now2 with
    ⟨_, hq⟩ | ⟨e, _, hq⟩ | ⟨_, hq⟩ | ⟨e, hq⟩ | ⟨e, _, hq⟩ |
    ⟨f0, fc0, e, ho, hs, hq⟩ | ⟨f0, fc0, e, ho, hs, hcon, hq⟩ |
    ⟨f0, fc0, token, e, ho, hs, hcon, hre, hq⟩ |
    ⟨f0, fc0, token, e, ho, hs, hcon, hre, had, hq⟩ |
    ⟨f0, fc0, token, ho, hs, hcon, hre, had, hq⟩
  · rw [hrun] at hq
    simp only [Prod.mk.injEq] at hq
    obtain ⟨hout, htr, hst⟩ := hq
    subst htr
    simp at hm
  · rw [hrun] at hq
    simp only [Prod.mk.injEq] at hq
    obtain ⟨hout, htr, hst⟩ := hq
    subst htr
    simp at hm
  · rw [hrun] at hq
    simp only [Prod.mk.injEq] at hq
    obtain ⟨hout, htr, hst⟩ := hq
    subst htr
    simp at hm
  · rw [hrun] at hq
    simp only [Prod.mk.injEq] at hq
    obtain ⟨hout, htr, hst⟩ := hq
    subst htr
    simp at hm
  · rw [hrun] at hq
    simp only [Prod.mk.injEq] at hq
    obtain ⟨hout, htr, hst⟩ := hq
    subst htr
    simp at hm
  · rw [hrun] at hq
    simp only [Prod.mk.injEq] at hq
    obtain ⟨hout, htr, hst⟩ := hq
    subst htr
    simp at hm
  · rw [hrun] at hq
    simp only [Prod.mk.injEq] at hq
    obtain ⟨hout, htr, hst⟩ := hq
    subst htr
    simp at hm
    subst hm
    refine ⟨hs, fc0, [], ho, rfl, hst, ?_, ?_, ?_⟩
    · rw [phaseAItem]
      exact lookupKey_negotiatedItem_contract _ _ _ _
    · rw [phaseAItem]
      exact lookupKey_negotiatedItem_audit _ _ _ _
    · rw [phaseAItem]
      exact lookupKey_negotiatedItem_meta _ _ _ _
  · rw [hrun] at hq
    simp only [Prod.mk.injEq] at hq
    obtain ⟨hout, htr, hst⟩ := hq
    subst htr
    simp at hm
    subst hm
    refine ⟨hs, fc0, [Ev.frameReload], ho, rfl, hst, ?_, ?_, ?_⟩
    · rw [phaseAItem]
      exact lookupKey_negotiatedItem_contract _ _ _ _
    · rw [phaseAItem]
      exact lookupKey_negotiatedItem_audit _ _ _ _
    · rw [phaseAItem]
      exact lookupKey_negotiatedItem_meta _ _ _ _
  · rw [hrun] at hq
    simp only [Prod.mk.injEq] at hq
    obtain ⟨hout, htr, hst⟩ := hq
    subst htr
    simp at hm
    subst hm
    refine ⟨hs, fc0,
      [Ev.frameReload, Ev.recordBytes req.size, Ev.addShard], ho, rfl, hst,
      ?_, ?_, ?_⟩
    · rw [phaseAItem]
      exact lookupKey_negotiatedItem_contract _ _ _ _
    · rw [phaseAItem]
      exact lookupKey_negotiatedItem_audit _ _ _ _
    · rw [phaseAItem]
      exact lookupKey_negotiatedItem_meta _ _ _ _
  · rw [hrun] at hq
    simp only [Prod.mk.injEq] at hq
    obtain ⟨hout, htr, hst⟩ := hq
    subst htr
    simp at hm
    subst hm
    refine ⟨hs, fc0,
      [Ev.frameReload, Ev.recordBytes req.size, Ev.addShard], ho, rfl, hst,
      ?_, ?_, ?_⟩
    · rw [phaseAItem]
      exact lookupKey_negotiatedItem_contract _ _ _ _
    · rw [phaseAItem]
      exact lookupKey_negotiatedItem_audit _ _ _ _
    · rw [phaseAItem]
      exact lookupKey_negotiatedItem_meta _ _ _ _

/-- Witness for C3 on the fully successful run. -/
theorem c3_save_precedes_consignment_witness :
    Ev.consignment "farmer1" ∈
      (addShardToFrame envAllOk [] sampleReq 0 0).2.1 ∧
    (envAllOk.saveFail = none ∧
      ∃ fc evs, envAllOk.offer = Except.ok ("farmer1", fc) ∧
        (addShardToFrame envAllOk [] sampleReq 0 0).2.1 =
          Ev.frameLookup :: Ev.pointerCreate ::
          Ev.contractsLoad sampleReq.hash ::
          Ev.storageOffer sampleReq.hash (blacklistOf sampleReq) ::
          Ev.contractsSave (phaseAItem envAllOk [] sampleReq "farmer1" fc) ::
          Ev.consignment "farmer1" :: evs ∧
        (addShardToFrame envAllOk [] sampleReq 0 0).2.2 =
          storeSave [] (phaseAItem envAllOk [] sampleReq "farmer1" fc) ∧
        lookupKey "farmer1"
          (phaseAItem envAllOk [] sampleReq "farmer1" fc).contracts =
          some fc ∧
        lookupKey "farmer1"
          (phaseAItem envAllOk [] sampleReq "farmer1" fc).auditRecords =
          some (auditOf sampleReq) ∧
        lookupKey "farmer1"
          (phaseAItem envAllOk [] sampleReq "farmer1" fc).meta =
          some { downloadCount := 0 }) :=
  ⟨by decide, c3_save_precedes_consignment envAllOk [] sampleReq 0 0 "farmer1"
    _ _ _ rfl (by decide)⟩

/-- Claim C8 counterexample: in a run where consignment succeeds but
`frame.addShard` fails, the upload counters are recorded
(`Ev.recordBytes` occurs in the trace) although the shard pointer is never
durably attached — the request ends in `InternalError`.  The counters are
therefore not "mutated only after the shard pointer has been durably
attached". -/
theorem c8_record_without_attach_counterexample :
    Ev.recordBytes 5 ∈ (addShardToFrame envAttachFails [] sampleReq 0 0).2.1 ∧
    (addShardToFrame envAttachFails [] sampleReq 0 0).1 =
      Outcome.internalError "disk full" := by
  decide

/-- Claim C8 amended: the upload counters are recorded only in runs that
already obtained a consignment token and re-read the frame; the recording
is issued immediately before the attachment attempt and is not undone if
the attachment fails.  Any failure before the frame re-read leaves the
counters untouched. -/
theorem c8_record_only_after_consignment (env : Env) (st : Store)
    (req : ReqBody) (now1 now2 : Nat) (s : Nat) (out : Outcome)
    (tr : List Ev) (st2 : Store)
    (hrun : addShardToFrame env st req now1 now2 = (out, tr, st2))
    (hm : Ev.recordBytes s ∈ tr) :
    s = req.size ∧
    ∃ farmer evs, tr = evs ++ [Ev.recordBytes req.size, Ev.addShard] ∧
      Ev.consignment farmer ∈ evs ∧ Ev.frameReload ∈ evs := by
  rcases addShardToFrame_cases env st req now1 now2 with
    ⟨_, hq⟩ | ⟨e, _, hq⟩ | ⟨_, hq⟩ | ⟨e, hq⟩ | ⟨e, _, hq⟩ |
    ⟨f0, fc0, e, ho, hs, hq⟩ | ⟨f0, fc0, e, ho, hs, hcon, hq⟩ |
    ⟨f0, fc0, token, e, ho, hs, hcon, hre, hq⟩ |
    ⟨f0, fc0, token, e, ho, hs, hcon, hre, had, hq⟩ |
    ⟨f0, fc0, token, ho, hs, hcon, hre, had, hq⟩
  · rw [hrun] at hq
    simp only [Prod.mk.injEq] at hq
    obtain ⟨hout, htr, hst⟩ := hq
    subst htr
    simp at hm
  · rw [hrun] at hq
    simp only [Prod.mk.injEq] at hq
    obtain ⟨hout, htr, hst⟩ := hq
    subst htr
    simp at hm
  · rw [hrun] at hq
    simp only [Prod.mk.injEq] at hq
    obtain ⟨hout, htr, hst⟩ := hq
    subst htr
    simp at hm
  · rw [hrun] at hq
    simp only [Prod.mk.injEq] at hq
    obtain ⟨hout, htr, hst⟩ := hq
    subst htr
    simp at hm
  · rw [hrun] at hq
    simp only [Prod.mk.injEq] at hq
    obtain ⟨hout, htr, hst⟩ := hq
    subst htr
    simp at hm
  · rw [hrun] at hq
    simp only [Prod.mk.injEq] at hq
    obtain ⟨hout, htr, hst⟩ := hq
    subst htr
    simp at hm
  · rw [hrun] at hq
    simp only [Prod.mk.injEq] at hq
    obtain ⟨hout, htr, hst⟩ := hq
    subst htr
    simp at hm
  · rw [hrun] at hq
    simp only [Prod.mk.injEq] at hq
    obtain ⟨hout, htr, hst⟩ := hq
    subst htr
    simp at hm
  · rw [hrun] at hq
    simp only [Prod.mk.injEq] at hq
    obtain ⟨hout, htr, hst⟩ := hq
    subst htr
    simp at hm
    refine ⟨hm, f0,
      [Ev.frameLookup, Ev.pointerCreate, Ev.contractsLoad req.hash,
       Ev.storageOffer req.hash (blacklistOf req),
       Ev.contractsSave (phaseAItem env st req f0 fc0),
       Ev.consignment f0, Ev.frameReload], rfl, by simp, by simp⟩
  · rw [hrun] at hq
    simp only [Prod.mk.injEq] at hq
    obtain ⟨hout, htr, hst⟩ := hq
    subst htr
    simp at hm
    refine ⟨hm, f0,
      [Ev.frameLookup, Ev.pointerCreate, Ev.contractsLoad req.hash,
       Ev.storageOffer req.hash (blacklistOf req),
       Ev.contractsSave (phaseAItem env st req f0 fc0),
       Ev.consignment f0, Ev.frameReload], rfl, by simp, by simp⟩

/-- Witness for C8 amended on the fully successful run. -/
theorem c8_record_only_after_consignment_witness :
    Ev.recordBytes 5 ∈ (addShardToFrame envAllOk [] sampleReq 0 0).2.1 ∧
    ((5 : Nat) = sampleReq.size ∧
      ∃ farmer evs, (addShardToFrame envAllOk [] sampleReq 0 0).2.1 =
          evs ++ [Ev.recordBytes sampleReq.size, Ev.addShard] ∧
        Ev.consignment farmer ∈ evs ∧ Ev.frameReload ∈ evs) :=
  ⟨by decide, c8_record_only_after_consignment envAllOk [] sampleReq 0 0 5
    _ _ _ rfl (by decide)⟩

/-- Claim C9: two concurrent negotiations for the same hash by different
farmers, both loading before either saves, both retain their entries in the
stored item: the farmer-keyed merge of the save keeps both farmers'
contracts, audit records and metadata; neither write is lost.  The store
may already hold an item for the hash (e.g. from earlier farmers); it is
only required that the stored item is keyed by its own hash and that the
first racing farmer is a new contract holder for it. -/
theorem c9_concurrent_merge (st0 : Store) (hash f1 f2 : String)
    (c1 c2 : Contract) (a1 a2 : AuditStream)
    (hne : f1 ≠ f2)
    (hwf : ∀ it0, lookupKey hash st0 = some it0 → it0.hash = hash)
    (hfA : FarmerFresh (loadOrCreate st0 hash) f1) :
    ∃ it, storeLoad (interleavedNegotiations st0 hash f1 f2 c1 c2 a1 a2)
        hash = Except.ok it ∧
      lookupKey f1 it.contracts = some c1 ∧
      lookupKey f2 it.contracts = some c2 ∧
      lookupKey f1 it.auditRecords = some a1 ∧
      lookupKey f2 it.auditRecords = some a2 ∧
      lookupKey f1 it.meta = some { downloadCount := 0 } ∧
      lookupKey f2 it.meta = some { downloadCount := 0 } := by
  have hne2 : f2 ≠ f1 := Ne.symm hne
  obtain ⟨hfc, hfa, hfm⟩ := hfA
  cases hk : lookupKey hash st0 with
  | none =>
    refine ⟨mergeItems (negotiatedItem (emptyItem hash) f1 c1 a1)
      (negotiatedItem (emptyItem hash) f2 c2 a2), ?_, ?_, ?_, ?_, ?_, ?_, ?_⟩
    · simp [interleavedNegotiations, loadOrCreate, storeLoad, hk,
        storeSave, negotiatedItem_hash, emptyItem, lookupKey_upsert_self]
    · refine lookupKey_mergeEntries_old ?_
        (lookupKey_negotiatedItem_contract _ _ _ _)
      simp [negotiatedItem, StorageItem.addContract,
        StorageItem.addAuditRecords, StorageItem.addMetaData, emptyItem,
        upsert, lookupKey, hne2]
    · exact lookupKey_mergeEntries_new _
        (lookupKey_negotiatedItem_contract _ _ _ _)
    · refine lookupKey_mergeEntries_old ?_
        (lookupKey_negotiatedItem_audit _ _ _ _)
      simp [negotiatedItem, StorageItem.addContract,
        StorageItem.addAuditRecords, StorageItem.addMetaData, emptyItem,
        upsert, lookupKey, hne2]
    · exact lookupKey_mergeEntries_new _
        (lookupKey_negotiatedItem_audit _ _ _ _)
    · refine lookupKey_mergeEntries_old ?_
        (lookupKey_negotiatedItem_meta _ _ _ _)
      simp [negotiatedItem, StorageItem.addContract,
        StorageItem.addAuditRecords, StorageItem.addMetaData, emptyItem,
        upsert, lookupKey, hne2]
    · exact lookupKey_mergeEntries_new _
        (lookupKey_negotiatedItem_meta _ _ _ _)
  | some z =>
    have hload : loadOrCreate st0 hash = z := by
      simp [loadOrCreate, storeLoad, hk]
    have hz : z.hash = hash := hwf z hk
    rw [hload] at hfc hfa hfm
    refine ⟨mergeItems (mergeItems z (negotiatedItem z f1 c1 a1))
      (negotiatedItem z f2 c2 a2), ?_, ?_, ?_, ?_, ?_, ?_, ?_⟩
    · simp [interleavedNegotiations, loadOrCreate, storeLoad, hk,
        storeSave, negotiatedItem_hash, hz, lookupKey_upsert_self]
    · refine lookupKey_mergeEntries_old ?_ ?_
      · show lookupKey f1 (upsert z.contracts f2 c2) = none
        rw [lookupKey_upsert_ne _ _ hne2]
        exact hfc
      · exact lookupKey_mergeEntries_new _
          (lookupKey_negotiatedItem_contract _ _ _ _)
    · exact lookupKey_mergeEntries_new _
        (lookupKey_negotiatedItem_contract _ _ _ _)
    · refine lookupKey_mergeEntries_old ?_ ?_
      · show lookupKey f1 (upsert z.auditRecords f2 a2) = none
        rw [lookupKey_upsert_ne _ _ hne2]
        exact hfa
      · exact lookupKey_mergeEntries_new _
          (lookupKey_negotiatedItem_audit _ _ _ _)
    · exact lookupKey_mergeEntries_new _
        (lookupKey_negotiatedItem_audit _ _ _ _)
    · refine lookupKey_mergeEntries_old ?_ ?_
      · show lookupKey f1 (upsert z.meta f2 { downloadCount := 0 }) = none
        rw [lookupKey_upsert_ne _ _ hne2]
        exact hfm
      · exact lookupKey_mergeEntries_new _
          (lookupKey_negotiatedItem_meta _ _ _ _)
    · exact lookupKey_mergeEntries_new _
        (lookupKey_negotiatedItem_meta _ _ _ _)

/-- Witness for C9 with two concrete racing farmers on a store already
holding an earlier farmer's entry for the hash: both new contracts, audit
records and metadata are retained. -/
theorem c9_concurrent_merge_witness :
    ("f1" : String) ≠ "f2" ∧
    FarmerFresh (loadOrCreate preexistingStore "h1") "f1" ∧
    ∃ it, storeLoad (interleavedNegotiations preexistingStore "h1" "f1" "f2"
        sampleContract sampleContract2 (auditOf sampleReq)
        { challenges := ["c3"], tree := ["t3"] }) "h1" = Except.ok it ∧
      lookupKey "f1" it.contracts = some sampleContract ∧
      lookupKey "f2" it.contracts = some sampleContract2 ∧
      lookupKey "f1" it.auditRecords = some (auditOf sampleReq) ∧
      lookupKey "f2" it.auditRecords =
        some { challenges := ["c3"], tree := ["t3"] } ∧
      lookupKey "f1" it.meta = some { downloadCount := 0 } ∧
      lookupKey "f2" it.meta = some { downloadCount := 0 } :=
  ⟨by decide, ⟨rfl, rfl, rfl⟩,
    c9_concurrent_merge preexistingStore "h1" "f1" "f2" sampleContract
      sampleContract2 (auditOf sampleReq)
      { challenges := ["c3"], tree := ["t3"] } (by decide)
      (by
        intro it0 h
        have h2 : some (negotiatedItem (emptyItem "h1") "farmerOld"
            sampleContract (auditOf sampleReq)) = some it0 := h
        injection h2 with h3
        rw [← h3]
        rfl)
      ⟨rfl, rfl, rfl⟩⟩

end Bridge
